import Mathlib

/-!
Shallow embedding of the bot session, authentication, streaming-relay,
platform-link, and rate-limit components of the gaia repository
(apps/api/app/api/v1/endpoints/bot.py, app/core/bot_auth_middleware.py,
app/services/platform_link_service.py, app/services/bot_service.py,
app/services/bot_token_service.py), with theorems settling the frozen
claims about those components.

Conventions of the embedding:
- MongoDB collections are lists of documents; update_one filtered by _id
  applies its update to the first matching document and reports the
  matched count.
- Redis counters are optional (count, expiresAt) pairs driven by an
  explicit Nat clock; the reachable-store case is modeled (the fail-open
  exception path is outside the claims proved here).
- json payloads flowing through the SSE relay are represented by their
  parse results, restricted to the fields the code inspects.
- Python falsiness of a string is the empty-string test; falsiness of an
  optional value is the none-or-empty test.
-/

/-- A JSON scalar appearing in the SSE payloads the relay emits. -/
inductive JVal
  | s (v : String)
  | b (v : Bool)
deriving DecidableEq, Repr

/-- A forwarded SSE event, as the ordered field list of the JSON object
serialized by the json.dumps calls in bot.py. -/
abbrev OutEvent := List (String × JVal)

/-- The text event the relay yields for a response field. -/
def textEvent (t : String) : OutEvent := [("text", JVal.s t)]

/-- The error event the relay yields when the internal source raises. -/
def errorEvent (m : String) : OutEvent := [("error", JVal.s m)]

/-- The terminal done event carrying the conversation id. -/
def doneEvent (conversationId : String) : OutEvent :=
  [("done", JVal.b true), ("conversation_id", JVal.s conversationId)]

/-- Parse result of one framed data chunk (json.loads of the part after
the data framing), restricted to the fields the relay inspects or the
claims mention. Fields other than response are ignored by the code. -/
structure DataObj where
  response : Option String
  error : Option String
deriving DecidableEq, Repr

/-- One chunk of the internal agent stream, classified exactly the way
bot_chat_stream.event_generator discriminates raw chunks: the nostream
framing (with its optional complete_message field), the data framing
holding the literal terminator, a parseable JSON payload, or malformed
JSON, and chunks with neither framing (skipped untouched). -/
inductive Chunk
  | nostream (completeMessage : Option String)
  | dataDone
  | dataJson (obj : DataObj)
  | dataMalformed
  | unframed
deriving DecidableEq, Repr

/-- The internal agent stream: the chunks it yields in order and, when
raises is set, the message of the exception the source raises after
yielding them (an exception from call_agent itself is the empty-chunks
case). -/
structure AgentStream where
  chunks : List Chunk
  raises : Option String
deriving DecidableEq, Repr

/-- State of the async-for loop of event_generator after consuming the
chunks: forwarded events, the complete_message accumulator, and whether
the loop hit the terminator and broke out. -/
structure ConsumeResult where
  events : List OutEvent
  acc : String
  sawDone : Bool
deriving DecidableEq, Repr

/-- The loop body of bot_chat_stream.event_generator (bot.py): nostream
payloads overwrite the accumulator when a complete_message field is
present; the data terminator breaks; a parsed object with a response
field appends to the accumulator and forwards a text event; every other
chunk (malformed JSON, objects without a response field, unframed
chunks) is skipped. -/
def consumeChunks : List Chunk → String → ConsumeResult
  | [], acc => ⟨[], acc, false⟩
  | c :: rest, acc =>
    match c with
    | .nostream cm => consumeChunks rest (cm.getD acc)
    | .dataDone => ⟨[], acc, true⟩
    | .dataJson obj =>
      match obj.response with
      | some r =>
        let k := consumeChunks rest (acc ++ r)
        ⟨textEvent r :: k.events, k.acc, k.sawDone⟩
      | none => consumeChunks rest acc
    | .dataMalformed => consumeChunks rest acc
    | .unframed => consumeChunks rest acc

/-- Outcome of one run of event_generator: the SSE events yielded, the
final accumulator, and the (user text, assistant text) pair handed to
update_messages, when persistence ran. -/
structure GenResult where
  events : List OutEvent
  accumulator : String
  persisted : Option (String × String)
deriving DecidableEq, Repr

/-- bot_chat_stream.event_generator (bot.py) for a linked user: consume
the internal stream, translating chunks; if the source raises before the
terminator was seen, yield one error event with the exception message;
always yield the terminal done event; finally persist the user and
assistant messages when the accumulator is nonempty. -/
def event_generator (userMessage conversationId : String)
    (stream : AgentStream) : GenResult :=
  let k := consumeChunks stream.chunks ""
  let events :=
    if k.sawDone then k.events ++ [doneEvent conversationId]
    else
      match stream.raises with
      | some msg => k.events ++ [errorEvent msg, doneEvent conversationId]
      | none => k.events ++ [doneEvent conversationId]
  { events := events
    accumulator := k.acc
    persisted := if k.acc = "" then none else some (userMessage, k.acc) }

/-- Modelled from the spec: the spec says the first SSE event of the
streaming endpoint carries a fresh session token, but no code under the
streaming endpoint builds such an event, so its shape is taken from the
spec wording: an event carries a session token when one of its JSON
fields is named token or session_token (the field name used by
BotChatResponse in bot_models.py). -/
def isSessionTokenEvent (e : OutEvent) : Bool :=
  e.any (fun kv => kv.1 == "token" || kv.1 == "session_token")

/-- Recognizer for the text event shape yielded by the relay. -/
def isTextEvent (e : OutEvent) : Bool :=
  match e with
  | [(k, JVal.s _)] => k == "text"
  | _ => false

/-- BotService.build_session_key (bot_service.py) and bot.py
_build_session_key: the suffix is channel_id or the dm marker, where a
Python-falsy channel (absent, or the empty string) selects the marker. -/
def build_session_key (platform platform_user_id : String)
    (channel_id : Option String) : String :=
  let suffix :=
    match channel_id with
    | some c => if c = "" then "dm" else c
    | none => "dm"
  platform ++ ":" ++ platform_user_id ++ ":" ++ suffix

/-- A channel argument on which the session-key construction is
injective: either absent (DM) or a nonempty string different from the
dm marker. -/
def channelOk : Option String → Prop
  | none => True
  | some c => c ≠ "" ∧ c ≠ "dm"

def BOT_RATE_LIMIT : Nat := 20

def BOT_RATE_WINDOW : Nat := 60

/-- Result of one rate-limit check: the request proceeds, or the
HTTPException status it is rejected with. -/
inductive RateResult
  | allowed
  | rejected (status : Nat)
deriving DecidableEq, Repr

/-- BotService.enforce_rate_limit (bot_service.py, identical to bot.py
_enforce_rate_limit) with the counter store reachable. The Redis counter
is an optional (count, expiresAt) pair: INCR on an absent or expired key
restarts the count at 1, the window expiry is set exactly when the fresh
count is 1, and the check rejects with 429 once the count exceeds the
ceiling. -/
def enforce_rate_limit (now : Nat) (st : Option (Nat × Nat)) :
    RateResult × Option (Nat × Nat) :=
  match st with
  | none => (RateResult.allowed, some (1, now + BOT_RATE_WINDOW))
  | some (c, e) =>
    if now < e then
      let count := c + 1
      (if count > BOT_RATE_LIMIT then RateResult.rejected 429
       else RateResult.allowed,
       some (count, e))
    else
      (RateResult.allowed, some (1, now + BOT_RATE_WINDOW))

/-- A sequence of rate-limit checks at the given instants, threading the
counter state. -/
def runChecks : List Nat → Option (Nat × Nat) → List RateResult × Option (Nat × Nat)
  | [], st => ([], st)
  | t :: rest, st =>
    let step := enforce_rate_limit t st
    let tail := runChecks rest step.2
    (step.1 :: tail.1, tail.2)

/-- The expected verdicts of n consecutive in-window checks starting
from stored count c. -/
def expectedVerdicts (c : Nat) : Nat → List RateResult
  | 0 => []
  | n + 1 =>
    (if c + 1 > BOT_RATE_LIMIT then RateResult.rejected 429
     else RateResult.allowed) :: expectedVerdicts (c + 1) n

/-- The value stored under platform_links.platform on a user document:
either the legacy plain string or the dict layout written by
PlatformLinkService.link_account. -/
inductive LinkValue
  | legacy (v : String)
  | dict (id : String) (username displayName : Option String)
deriving DecidableEq, Repr

/-- A document of users_collection, restricted to the fields the bot
code reads. Field maps are functions from field names; a Mongo document
holds at most one value per field, which makes the per-account half of
the PlatformLink invariant structural. -/
structure UserDoc where
  _id : String
  email : Option String := none
  name : Option String := none
  picture : Option String := none
  platform_links : String → Option LinkValue
  platform_links_connected_at : String → Option String

/-- Mongo equality on the dotted path platform_links.platform.id: it
matches a document whose stored value is a subdocument with an id field
equal to the queried string; a legacy scalar value has no id field. -/
def linksTo (u : UserDoc) (platform pid : String) : Bool :=
  match u.platform_links platform with
  | some (LinkValue.dict id _ _) => id == pid
  | _ => false

/-- Mongo equality on the path platform_links.platform against a plain
string: it matches only a document whose stored value IS that string
(legacy scalar layout); a subdocument value never equals a string. -/
def linksToLegacy (u : UserDoc) (platform pid : String) : Bool :=
  match u.platform_links platform with
  | some (LinkValue.legacy v) => v == pid
  | _ => false

namespace PlatformLinkService

/-- PlatformLinkService.get_user_by_platform_id
(platform_link_service.py): find_one on platform_links.platform.id. -/
def get_user_by_platform_id (store : List UserDoc)
    (platform platform_user_id : String) : Option UserDoc :=
  store.find? (fun u => linksTo u platform platform_user_id)

end PlatformLinkService

namespace BotEndpoint

/-- get_user_by_platform_id in bot.py: find_one on the plain path
platform_links.platform compared against the platform user id string. -/
def get_user_by_platform_id (store : List UserDoc)
    (platform platform_user_id : String) : Option UserDoc :=
  store.find? (fun u => linksToLegacy u platform platform_user_id)

end BotEndpoint

/-- users_collection.update_one filtered by _id: applies f to the first
document carrying the id; the second component is matched_count. -/
def updateOne : List UserDoc → String → (UserDoc → UserDoc) → List UserDoc × Nat
  | [], _, _ => ([], 0)
  | u :: rest, uid, f =>
    if u._id = uid then (f u :: rest, 1)
    else (u :: (updateOne rest uid f).1, (updateOne rest uid f).2)

/-- Drop leading whitespace characters. -/
def dropLeadingWS : List Char → List Char
  | [] => []
  | c :: rest => if c.isWhitespace then dropLeadingWS rest else c :: rest

/-- The str(...).strip() call of link_account: remove leading and
trailing whitespace. -/
def pyStrip (s : String) : String :=
  ⟨((dropLeadingWS ((dropLeadingWS s.data).reverse)).reverse)⟩

def errEmptyPid : String := "platform_user_id must not be empty"

def errLinkedToOther (platform : String) : String :=
  "This " ++ platform ++ " account is already linked to another GAIA user"

def errDifferentLinked (platform : String) : String :=
  "Your account already has a different " ++ platform ++ " account linked"

def errUserNotFound : String := "User not found"

/-- The optional profile argument of link_account. -/
structure Profile where
  username : Option String := none
  display_name : Option String := none
deriving DecidableEq, Repr

/-- The dict value link_account stores: the id always, and the username
and display_name keys exactly when the profile carries truthy (nonempty)
values for them. -/
def buildLinkValue (pid : String) (profile : Option Profile) : LinkValue :=
  match profile with
  | none => LinkValue.dict pid none none
  | some pr =>
    LinkValue.dict pid
      (match pr.username with
       | some s => if s = "" then none else some s
       | none => none)
      (match pr.display_name with
       | some s => if s = "" then none else some s
       | none => none)

/-- The update document of link_account: set platform_links.platform
and platform_links_connected_at.platform. -/
def setLink (platform : String) (v : LinkValue) (now : String)
    (u : UserDoc) : UserDoc :=
  { u with
    platform_links := fun q => if q = platform then some v else u.platform_links q
    platform_links_connected_at :=
      fun q => if q = platform then some now else u.platform_links_connected_at q }

/-- The check of link_account on the linking user: reject when the user
document already stores a dict link for the platform whose id is truthy
(nonempty) and different from the id being linked. -/
def currentLinkConflict (store : List UserDoc)
    (user_id platform pid : String) : Bool :=
  match store.find? (fun u => u._id == user_id) with
  | some user =>
    match user.platform_links platform with
    | some (LinkValue.dict cid _ _) => cid != "" && cid != pid
    | _ => false
  | none => false

namespace PlatformLinkService

/-- PlatformLinkService.link_account (platform_link_service.py): strip
the id and reject empty; reject when the platform id is already linked
to a different user; reject when the user already has a different
truthy platform id stored; otherwise write the dict link with
update_one by _id, rejecting with User not found when nothing matched
(in which case the update was a no-op and the store is unchanged). -/
def link_account (store : List UserDoc)
    (user_id platform platform_user_id : String)
    (profile : Option Profile) (now : String) :
    Except String (List UserDoc) :=
  let pid := (pyStrip platform_user_id)
  if pid = "" then Except.error errEmptyPid
  else if (match store.find? (fun u => linksTo u platform pid) with
           | some ex => ex._id != user_id
           | none => false) then
    Except.error (errLinkedToOther platform)
  else if currentLinkConflict store user_id platform pid then
    Except.error (errDifferentLinked platform)
  else
    let r := updateOne store user_id (setLink platform (buildLinkValue pid profile) now)
    if r.2 = 0 then Except.error errUserNotFound else Except.ok r.1

/-- The update document of unlink_account: unset both platform fields. -/
def unsetLink (platform : String) (u : UserDoc) : UserDoc :=
  { u with
    platform_links := fun q => if q = platform then none else u.platform_links q
    platform_links_connected_at :=
      fun q => if q = platform then none else u.platform_links_connected_at q }

/-- PlatformLinkService.unlink_account (platform_link_service.py):
unset the platform link with update_one by _id, rejecting with User not
found when nothing matched. -/
def unlink_account (store : List UserDoc) (user_id platform : String) :
    Except String (List UserDoc) :=
  let r := updateOne store user_id (unsetLink platform)
  if r.2 = 0 then Except.error errUserNotFound else Except.ok r.1

end PlatformLinkService

/-- The store an Except-returning operation leaves behind: the new
store on success, the untouched input store when the operation raised. -/
def resultStore (store : List UserDoc) : Except String (List UserDoc) → List UserDoc
  | Except.ok s => s
  | Except.error _ => store

/-- The PlatformLink invariant on the durable store: _id values are
unique (a Mongo collection guarantee the code relies on) and each
(platform, platform id) pair is linked, in the dict layout the service
queries, by at most one account document. The per-account half of the
spec invariant - at most one link per platform - is structural here:
platform_links maps each platform to at most one value. -/
def StoreInv (store : List UserDoc) : Prop :=
  (store.map (fun u => u._id)).Nodup ∧
  ∀ platform pid, store.countP (fun u => linksTo u platform pid) ≤ 1

/-- The decoded payload of a bot session JWT as issued by
create_bot_session_token (bot_token_service.py). -/
structure BotSessionToken where
  sub : String
  platform : String
  platform_user_id : String
  role : String
  exp : Nat
deriving DecidableEq, Repr

def BOT_SESSION_TOKEN_EXPIRY_MINUTES : Nat := 15

/-- create_bot_session_token (bot_token_service.py): claim set bound to
(user, platform, platform user id) with the bot role marker and a
15-minute default expiry. -/
def create_bot_session_token (user_id platform platform_user_id : String)
    (now : Nat)
    (expires_minutes : Nat := BOT_SESSION_TOKEN_EXPIRY_MINUTES) :
    BotSessionToken :=
  { sub := user_id
    platform := platform
    platform_user_id := platform_user_id
    role := "bot"
    exp := now + expires_minutes * 60 }

/-- The dict verify_bot_session_token returns. -/
structure TokenClaims where
  user_id : String
  platform : String
  platform_user_id : String
deriving DecidableEq, Repr

/-- verify_bot_session_token (bot_token_service.py): jwt.decode rejects
an expired token; a token whose role marker is not bot is rejected;
otherwise the (sub, platform, platform_user_id) claims are returned. -/
def verify_bot_session_token (t : BotSessionToken) (now : Nat) :
    Except Unit TokenClaims :=
  if t.exp ≤ now then Except.error ()
  else if t.role ≠ "bot" then Except.error ()
  else Except.ok ⟨t.sub, t.platform, t.platform_user_id⟩

/-- The user_info dict the middleware caches and returns. -/
structure UserInfo where
  user_id : String
  email : Option String
  name : Option String
  picture : Option String
  auth_provider : String
  bot_authenticated : Bool
deriving DecidableEq, Repr

/-- The short-TTL identity cache keyed by the formatted cache key. -/
abbrev Cache := String → Option UserInfo

/-- The cache key used by both middleware lookups. -/
def cacheKey (platform platform_user_id : String) : String :=
  "bot_user:" ++ platform ++ ":" ++ platform_user_id

/-- The user_info dict built from a user document. -/
def mkUserInfo (u : UserDoc) (platform : String) : UserInfo :=
  { user_id := u._id
    email := u.email
    name := u.name
    picture := u.picture
    auth_provider := "bot:" ++ platform
    bot_authenticated := true }

namespace BotAuthMiddleware

/-- BotAuthMiddleware._authenticate_jwt (bot_auth_middleware.py):
verify the session token; reject when any claim is falsy; return the
cached identity when the cache entry for (platform, platform user id)
carries the token subject; otherwise look the link up in the durable
store, rejecting when it is absent or points at a different user, and
populate the cache on success. The returned pair is the resolved
identity (none meaning resolution failed) and the cache afterwards. -/
def _authenticate_jwt (store : List UserDoc) (cache : Cache)
    (token : BotSessionToken) (now : Nat) : Option UserInfo × Cache :=
  match verify_bot_session_token token now with
  | Except.error _ => (none, cache)
  | Except.ok claims =>
    if claims.user_id = "" ∨ claims.platform = "" ∨ claims.platform_user_id = "" then
      (none, cache)
    else
      let key := cacheKey claims.platform claims.platform_user_id
      let fromStore : Option UserInfo × Cache :=
        match PlatformLinkService.get_user_by_platform_id store
            claims.platform claims.platform_user_id with
        | none => (none, cache)
        | some ud =>
          if ud._id ≠ claims.user_id then (none, cache)
          else
            let ui := mkUserInfo ud claims.platform
            (some ui, fun k => if k = key then some ui else cache k)
      match cache key with
      | some cu => if cu.user_id = claims.user_id then (some cu, cache) else fromStore
      | none => fromStore

/-- BotAuthMiddleware._verify_api_key (bot_auth_middleware.py). -/
def _verify_api_key (gaia_bot_api_key : Option String)
    (api_key : String) : Bool :=
  match gaia_bot_api_key with
  | none => false
  | some k => if k = "" then false else api_key == k

end BotAuthMiddleware

/-- Python falsiness of the configured secret: unset, or empty. -/
def isFalsyKey : Option String → Bool
  | none => true
  | some s => s == ""

/-- verify_bot_api_key (bot.py): raise 401 unless the secret is
configured truthy and the presented header equals it. -/
def verify_bot_api_key (gaia_bot_api_key : Option String)
    (x_bot_api_key : String) : Except Nat Unit :=
  if isFalsyKey gaia_bot_api_key || (some x_bot_api_key != gaia_bot_api_key) then
    Except.error 401
  else Except.ok ()

/-! ### Helper lemmas -/

theorem string_append_left_cancel {x s t : String} (h : x ++ s = x ++ t) :
    s = t := by
  have hd : x.data ++ s.data = x.data ++ t.data := by
    simpa [String.data_append] using congrArg String.data h
  exact String.ext (List.append_cancel_left hd)

/-- Every event forwarded by the consume loop is a text event. -/
theorem consumeChunks_all_text (chunks : List Chunk) : ∀ acc : String,
    (consumeChunks chunks acc).events.all isTextEvent = true := by
  induction chunks with
  | nil => intro acc; rfl
  | cons c rest ih =>
    intro acc
    cases c with
    | nostream cm => simpa [consumeChunks] using ih (cm.getD acc)
    | dataDone => rfl
    | dataJson obj =>
      cases h : obj.response with
      | some r =>
        have := ih (acc ++ r)
        simp [consumeChunks, h, isTextEvent, textEvent]
        exact List.all_eq_true.mp this
      | none => simpa [consumeChunks, h] using ih acc
    | dataMalformed => simpa [consumeChunks] using ih acc
    | unframed => simpa [consumeChunks] using ih acc

/-- A text event carries no session-token field. -/
theorem isTextEvent_not_token :
    ∀ e : OutEvent, isTextEvent e = true → isSessionTokenEvent e = false
  | [(k, JVal.s _)], h => by
    have hk : k = "text" := by simpa [isTextEvent] using h
    subst hk
    rfl
  | [], h => by simp [isTextEvent] at h
  | [(_, JVal.b _)], h => by simp [isTextEvent] at h
  | _ :: _ :: _, h => by simp [isTextEvent] at h

/-- The events of one generator run: the translated chunks followed by
the stream suffix (error event if the source raised before the
terminator, then the single terminal done event). -/
theorem event_generator_events (um cid : String) (stream : AgentStream) :
    (event_generator um cid stream).events =
      (consumeChunks stream.chunks "").events ++
        (if (consumeChunks stream.chunks "").sawDone then [doneEvent cid]
         else
           match stream.raises with
           | some msg => [errorEvent msg, doneEvent cid]
           | none => [doneEvent cid]) := by
  unfold event_generator
  cases h : (consumeChunks stream.chunks "").sawDone <;>
    cases stream.raises <;> simp [h]

theorem event_generator_accumulator (um cid : String) (stream : AgentStream) :
    (event_generator um cid stream).accumulator =
      (consumeChunks stream.chunks "").acc := rfl

theorem event_generator_persisted (um cid : String) (stream : AgentStream) :
    (event_generator um cid stream).persisted =
      (if (consumeChunks stream.chunks "").acc = "" then none
       else some (um, (consumeChunks stream.chunks "").acc)) := rfl

/-! ### C6 -/

/-- C6: for the scripted internal sequence (response Hi , response
there, terminator), the relay emits exactly the two text events and
then the single terminal done event carrying the conversation id, and
the accumulated assistant text handed to persistence is Hi there. -/
theorem c6_stream_translation_completeness (um cid : String) :
    event_generator um cid
      ⟨[Chunk.dataJson ⟨some "Hi ", none⟩,
        Chunk.dataJson ⟨some "there", none⟩,
        Chunk.dataDone], none⟩ =
      ⟨[textEvent "Hi ", textEvent "there", doneEvent cid],
       "Hi there", some (um, "Hi there")⟩ := rfl

/-! ### C2 -/

/-- C2 counterexample: on the scripted sequence (response partial,
error boom, response never seen) the relay forwards the text event for
never seen and forwards no error event, contradicting the claimed
error short-circuit. -/
theorem c2_counterexample :
    (event_generator "m" "c"
      ⟨[Chunk.dataJson ⟨some "partial", none⟩,
        Chunk.dataJson ⟨none, some "boom"⟩,
        Chunk.dataJson ⟨some "never seen", none⟩], none⟩).events =
      [textEvent "partial", textEvent "never seen", doneEvent "c"] ∧
    textEvent "never seen" ∈
      (event_generator "m" "c"
        ⟨[Chunk.dataJson ⟨some "partial", none⟩,
          Chunk.dataJson ⟨none, some "boom"⟩,
          Chunk.dataJson ⟨some "never seen", none⟩], none⟩).events ∧
    errorEvent "boom" ∉
      (event_generator "m" "c"
        ⟨[Chunk.dataJson ⟨some "partial", none⟩,
          Chunk.dataJson ⟨none, some "boom"⟩,
          Chunk.dataJson ⟨some "never seen", none⟩], none⟩).events := by
  decide

/-- C2 amended: a parsed data event carrying an error field but no
response field is skipped like any other non-response payload - it is
neither forwarded nor does it terminate consumption - so on the
scripted sequence the relay emits the partial text event, then the
never seen text event, then the terminal done marker, accumulating
both responses; error events reach the client only through the
exception path. -/
theorem c2_error_field_ignored (um cid eMsg : String)
    (rest : List Chunk) (acc : String) :
    consumeChunks (Chunk.dataJson ⟨none, some eMsg⟩ :: rest) acc =
      consumeChunks rest acc ∧
    event_generator um cid
      ⟨[Chunk.dataJson ⟨some "partial", none⟩,
        Chunk.dataJson ⟨none, some eMsg⟩,
        Chunk.dataJson ⟨some "never seen", none⟩], none⟩ =
      ⟨[textEvent "partial", textEvent "never seen", doneEvent cid],
       "partialnever seen", some (um, "partialnever seen")⟩ :=
  ⟨rfl, rfl⟩

/-! ### C4 -/

/-- C4 counterexample: a linked-user streaming run whose first emitted
event is the text event translated from the agent stream, not an event
carrying a session token (the relay never builds one). -/
theorem c4_counterexample :
    (event_generator "hello" "c1"
      ⟨[Chunk.dataJson ⟨some "Hi", none⟩], none⟩).events.head? =
      some (textEvent "Hi") ∧
    isSessionTokenEvent (textEvent "Hi") = false := by
  decide

/-- C4 amended: the streaming relay for a linked user never emits a
session-token event on any run - every yielded event is a text, error,
or terminal done event - so the first SSE event comes from the agent
translation, not from a token hand-off. -/
theorem c4_no_session_token_event (um cid : String) (s : AgentStream) :
    (event_generator um cid s).events.all
      (fun e => !isSessionTokenEvent e) = true := by
  rw [List.all_eq_true]
  intro e he
  suffices hfalse : isSessionTokenEvent e = false by simp [hfalse]
  rw [event_generator_events] at he
  rcases List.mem_append.1 he with h | h
  · have hall := consumeChunks_all_text s.chunks ""
    rw [List.all_eq_true] at hall
    exact isTextEvent_not_token e (hall e h)
  · rcases hsd : (consumeChunks s.chunks "").sawDone with _ | _ <;>
      rw [hsd] at h
    · cases hr : s.raises with
      | some msg =>
        rw [hr] at h
        rcases List.mem_cons.1 h with h1 | h1
        · subst h1; rfl
        · have : e = doneEvent cid := by simpa using h1
          subst this; rfl
      | none =>
        rw [hr] at h
        have : e = doneEvent cid := by simpa using h
        subst this; rfl
    · have : e = doneEvent cid := by simpa using h
      subst this; rfl

/-! ### C5 -/

/-- C5 counterexample: the DM session key collides with the session key
for the literal channel dm, although the two channel arguments differ. -/
theorem c5_counterexample :
    build_session_key "discord" "u1" none =
      build_session_key "discord" "u1" (some "dm") ∧
    (none : Option String) ≠ some "dm" := by
  decide

/-- C5 amended: for a fixed platform and platform user id the
session-key construction is injective on channel arguments that are
either absent (DM) or a nonempty string other than dm, so two distinct
such channels, or such a channel versus the DM, never share a
conversation key; the excluded channel values (the empty string and the
literal dm) collide with the DM key. -/
theorem c5_session_key_injective (p u : String) (c1 c2 : Option String)
    (h1 : channelOk c1) (h2 : channelOk c2)
    (heq : build_session_key p u c1 = build_session_key p u c2) :
    c1 = c2 := by
  unfold build_session_key at heq
  have hs := string_append_left_cancel heq
  cases c1 with
  | none =>
    cases c2 with
    | none => rfl
    | some b =>
      obtain ⟨hb1, hb2⟩ := h2
      dsimp only at hs
      rw [if_neg hb1] at hs
      exact absurd hs.symm hb2
  | some a =>
    obtain ⟨ha1, ha2⟩ := h1
    cases c2 with
    | none =>
      dsimp only at hs
      rw [if_neg ha1] at hs
      exact absurd hs ha2
    | some b =>
      obtain ⟨hb1, _⟩ := h2
      dsimp only at hs
      rw [if_neg ha1, if_neg hb1] at hs
      exact congrArg some hs

theorem c5_witness :
    channelOk (some "chan-A") ∧ (some "chan-A" : Option String) = some "chan-A" :=
  ⟨by exact ⟨by decide, by decide⟩,
   c5_session_key_injective "discord" "u1" (some "chan-A") (some "chan-A")
     ⟨by decide, by decide⟩ ⟨by decide, by decide⟩ rfl⟩

/-! ### C7 -/

/-- C7 counterexample: when the source raises before any response
content was accumulated, the relay emits the error and done events but
persistence does not run - no partial user/assistant pair is saved. -/
theorem c7_counterexample :
    event_generator "hi" "c1" ⟨[], some "boom"⟩ =
      ⟨[errorEvent "boom", doneEvent "c1"], "", none⟩ := rfl

/-- C7 amended: if the internal source raises (and the terminator was
not reached first), the relay emits its translated text events, one
error event carrying the exception message, and still the single
terminal done event; persistence then runs with the partial accumulator
exactly when it is nonempty (an empty partial reply is not saved). -/
theorem c7_error_terminates_with_done (um cid msg : String)
    (chunks : List Chunk)
    (h : (consumeChunks chunks "").sawDone = false) :
    (event_generator um cid ⟨chunks, some msg⟩).events =
      (consumeChunks chunks "").events ++ [errorEvent msg, doneEvent cid] ∧
    (consumeChunks chunks "").events.all isTextEvent = true ∧
    (event_generator um cid ⟨chunks, some msg⟩).persisted =
      (if (consumeChunks chunks "").acc = "" then none
       else some (um, (consumeChunks chunks "").acc)) := by
  refine ⟨?_, consumeChunks_all_text chunks "", rfl⟩
  rw [event_generator_events]
  simp [h]

theorem c7_witness :
    (consumeChunks [Chunk.dataJson ⟨some "par", none⟩] "").sawDone = false ∧
    ((event_generator "u" "c"
        ⟨[Chunk.dataJson ⟨some "par", none⟩], some "b"⟩).events =
      (consumeChunks [Chunk.dataJson ⟨some "par", none⟩] "").events ++
        [errorEvent "b", doneEvent "c"] ∧
    (consumeChunks [Chunk.dataJson ⟨some "par", none⟩] "").events.all
      isTextEvent = true ∧
    (event_generator "u" "c"
        ⟨[Chunk.dataJson ⟨some "par", none⟩], some "b"⟩).persisted =
      (if (consumeChunks [Chunk.dataJson ⟨some "par", none⟩] "").acc = ""
       then none
       else some ("u", (consumeChunks [Chunk.dataJson ⟨some "par", none⟩] "").acc))) :=
  ⟨rfl, c7_error_terminates_with_done "u" "c" "b"
    [Chunk.dataJson ⟨some "par", none⟩] rfl⟩

/-! ### C10 -/

/-- C10: when the bot API key secret is unset or empty, every presented
header value makes verify_bot_api_key raise 401 and makes the
middleware _verify_api_key return false - the API-key path fails
closed. -/
theorem c10_unconfigured_key_fails_closed (cfg : Option String)
    (x : String) (h : isFalsyKey cfg = true) :
    verify_bot_api_key cfg x = Except.error 401 ∧
    BotAuthMiddleware._verify_api_key cfg x = false := by
  cases cfg with
  | none => exact ⟨rfl, rfl⟩
  | some s =>
    have hs : s = "" := by simpa [isFalsyKey] using h
    subst hs
    exact ⟨rfl, rfl⟩

theorem c10_witness :
    isFalsyKey none = true ∧
    (verify_bot_api_key none "any-presented-key" = Except.error 401 ∧
     BotAuthMiddleware._verify_api_key none "any-presented-key" = false) :=
  ⟨rfl, c10_unconfigured_key_fails_closed none "any-presented-key" rfl⟩

/-! ### C9 -/

/-- Checks within a live window accumulate the counter by one each and
produce the verdicts dictated by the running count. -/
theorem runChecks_window (ts : List Nat) : ∀ c e : Nat,
    ts.all (fun t => decide (t < e)) = true →
    runChecks ts (some (c, e)) =
      (expectedVerdicts c ts.length, some (c + ts.length, e)) := by
  induction ts with
  | nil => intro c e _; rfl
  | cons t rest ih =>
    intro c e h
    rw [List.all_cons, Bool.and_eq_true] at h
    obtain ⟨h1, h2⟩ := h
    have ht : t < e := of_decide_eq_true h1
    unfold runChecks
    simp only [enforce_rate_limit, if_pos ht]
    rw [ih (c + 1) e h2]
    refine Prod.ext_iff.mpr ⟨rfl, ?_⟩
    simp only [Option.some.injEq, Prod.mk.injEq, List.length_cons]
    exact ⟨by omega, trivial⟩

/-- C9: with the counter store reachable, for any per-key sequence of
21 checks all inside the first check's 60-second window, exactly the
first 20 are allowed and the 21st is rejected with 429, and a further
check at or after the window's expiry is allowed again. -/
theorem c9_rate_limiter_boundary (t0 tLate : Nat) (ts : List Nat)
    (hlen : ts.length = 20)
    (hwin : ts.all (fun t => decide (t < t0 + BOT_RATE_WINDOW)) = true)
    (hexp : t0 + BOT_RATE_WINDOW ≤ tLate) :
    (runChecks (t0 :: ts) none).1.length = 21 ∧
    (runChecks (t0 :: ts) none).1.take 20 =
      List.replicate 20 RateResult.allowed ∧
    (runChecks (t0 :: ts) none).1.getLast? =
      some (RateResult.rejected 429) ∧
    (enforce_rate_limit tLate (runChecks (t0 :: ts) none).2).1 =
      RateResult.allowed := by
  have hrun : runChecks (t0 :: ts) none =
      (RateResult.allowed :: expectedVerdicts 1 ts.length,
       some (1 + ts.length, t0 + BOT_RATE_WINDOW)) := by
    unfold runChecks
    simp only [enforce_rate_limit]
    rw [runChecks_window ts 1 (t0 + BOT_RATE_WINDOW) hwin]
  have hrun1 : (runChecks (t0 :: ts) none).1 =
      RateResult.allowed :: expectedVerdicts 1 ts.length := by rw [hrun]
  have hrun2 : (runChecks (t0 :: ts) none).2 =
      some (1 + ts.length, t0 + BOT_RATE_WINDOW) := by rw [hrun]
  rw [hrun1, hrun2, hlen]
  have hlate : ¬ tLate < t0 + BOT_RATE_WINDOW := by omega
  refine ⟨by decide, by decide, by decide, ?_⟩
  simp [enforce_rate_limit, hlate]

theorem c9_witness :
    (List.replicate 20 0 : List Nat).length = 20 ∧
    (List.replicate 20 0 : List Nat).all
      (fun t => decide (t < 0 + BOT_RATE_WINDOW)) = true ∧
    0 + BOT_RATE_WINDOW ≤ 60 ∧
    ((runChecks (0 :: List.replicate 20 0) none).1.length = 21 ∧
     (runChecks (0 :: List.replicate 20 0) none).1.take 20 =
       List.replicate 20 RateResult.allowed ∧
     (runChecks (0 :: List.replicate 20 0) none).1.getLast? =
       some (RateResult.rejected 429) ∧
     (enforce_rate_limit 60 (runChecks (0 :: List.replicate 20 0) none).2).1 =
       RateResult.allowed) :=
  ⟨by decide, by decide, by decide,
   c9_rate_limiter_boundary 0 60 (List.replicate 20 0)
     (by decide) (by decide) (by decide)⟩

/-! ### C8 -/

theorem updateOne_cons_pos {u : UserDoc} {rest : List UserDoc}
    {uid : String} {f : UserDoc → UserDoc} (h : u._id = uid) :
    updateOne (u :: rest) uid f = (f u :: rest, 1) := by
  rw [updateOne, if_pos h]

theorem updateOne_cons_neg {u : UserDoc} {rest : List UserDoc}
    {uid : String} {f : UserDoc → UserDoc} (h : ¬ u._id = uid) :
    updateOne (u :: rest) uid f =
      (u :: (updateOne rest uid f).1, (updateOne rest uid f).2) := by
  rw [updateOne, if_neg h]

/-- update_one does not change the _id column when its update leaves
_id untouched. -/
theorem updateOne_map_id (l : List UserDoc) (uid : String)
    (f : UserDoc → UserDoc) (hf : ∀ u, (f u)._id = u._id) :
    (updateOne l uid f).1.map (fun u => u._id) = l.map (fun u => u._id) := by
  induction l with
  | nil => rfl
  | cons u rest ih =>
    by_cases h : u._id = uid
    · rw [updateOne_cons_pos h]
      simp [hf u]
    · rw [updateOne_cons_neg h]
      simp only [List.map_cons]
      rw [ih]

/-- With unique _id values, updating the first matching document is the
same as updating every matching document. -/
theorem updateOne_eq_map (l : List UserDoc) (uid : String)
    (f : UserDoc → UserDoc)
    (hids : (l.map (fun u => u._id)).Nodup) :
    (updateOne l uid f).1 =
      l.map (fun u => if u._id = uid then f u else u) := by
  induction l with
  | nil => rfl
  | cons u rest ih =>
    rw [List.map_cons, List.nodup_cons] at hids
    obtain ⟨hnotin, hrest⟩ := hids
    by_cases h : u._id = uid
    · rw [updateOne_cons_pos h]
      have hnv : ∀ v ∈ rest, ¬ v._id = uid := by
        intro v hv hvid
        exact hnotin (h ▸ hvid ▸ List.mem_map_of_mem (fun u => u._id) hv)
      simp only [List.map_cons, if_pos h]
      refine congrArg (f u :: ·) ?_
      calc rest
          = rest.map id := (List.map_id rest).symm
        _ = rest.map (fun v => if v._id = uid then f v else v) :=
            List.map_congr_left (fun v hv => by simp [hnv v hv])
    · rw [updateOne_cons_neg h]
      simp only [List.map_cons, if_neg h]
      rw [ih hrest]

/-- A nonzero matched count means some document carries the id. -/
theorem updateOne_snd_ne_zero (l : List UserDoc) (uid : String)
    (f : UserDoc → UserDoc) :
    (updateOne l uid f).2 ≠ 0 → ∃ u ∈ l, u._id = uid := by
  induction l with
  | nil => intro h; exact absurd rfl h
  | cons u rest ih =>
    intro h
    by_cases hu : u._id = uid
    · exact ⟨u, List.mem_cons_self u rest, hu⟩
    · rw [updateOne_cons_neg hu] at h
      obtain ⟨v, hv, hvid⟩ := ih h
      exact ⟨v, List.mem_cons_of_mem u hv, hvid⟩

/-- With unique _id values, at most one document matches a given id. -/
theorem countP_id_le_one (l : List UserDoc) (uid : String)
    (h : (l.map (fun u => u._id)).Nodup) :
    l.countP (fun u => u._id == uid) ≤ 1 := by
  have hc := List.nodup_iff_count_le_one.mp h uid
  rw [List.count_eq_countP, List.countP_map] at hc
  simpa [Function.comp] using hc

/-- Two distinct members both satisfying a predicate force a count of
at least two. -/
theorem two_le_countP {α : Type} (p : α → Bool) (l : List α) :
    ∀ u v : α, u ∈ l → v ∈ l → p u = true → p v = true → u ≠ v →
      2 ≤ l.countP p := by
  induction l with
  | nil => intro u v hu _ _ _ _; simp at hu
  | cons a t ih =>
    intro u v hu hv hpu hpv hne
    rw [List.countP_cons]
    rcases List.mem_cons.1 hu with rfl | hu2
    · rcases List.mem_cons.1 hv with rfl | hv2
      · exact absurd rfl hne
      · have h1 : 0 < t.countP p := List.countP_pos_iff.mpr ⟨v, hv2, hpv⟩
        rw [if_pos hpu]
        omega
    · rcases List.mem_cons.1 hv with rfl | hv2
      · have h1 : 0 < t.countP p := List.countP_pos_iff.mpr ⟨u, hu2, hpu⟩
        rw [if_pos hpv]
        omega
      · have h2 := ih u v hu2 hv2 hpu hpv hne
        split <;> omega

/-- If every holder found by find? carries the linking id, then under
the at-most-one invariant a document with a different id does not hold
the link. -/
theorem no_other_holder (l : List UserDoc) (platform pid uid : String)
    (hcount : l.countP (fun u => linksTo u platform pid) ≤ 1)
    (hold : ∀ ex, l.find? (fun u => linksTo u platform pid) = some ex →
      ex._id = uid) :
    ∀ u ∈ l, u._id ≠ uid → linksTo u platform pid = false := by
  intro u hu hne
  by_contra hcon
  rw [Bool.not_eq_false] at hcon
  obtain ⟨ex, hex⟩ :
      ∃ ex, l.find? (fun u => linksTo u platform pid) = some ex := by
    cases hf : l.find? (fun u => linksTo u platform pid) with
    | some ex => exact ⟨ex, rfl⟩
    | none => exact absurd hcon (by simpa using List.find?_eq_none.mp hf u hu)
  have hexid := hold ex hex
  have hexmem := List.mem_of_find?_eq_some hex
  have hexp := List.find?_some hex
  have hneq : u ≠ ex := fun h => hne (h ▸ hexid)
  have h2 := two_le_countP (fun u => linksTo u platform pid) l
    u ex hu hexmem hcon hexp hneq
  omega

theorem linksTo_setLink (u : UserDoc) (platform pid : String)
    (un dn : Option String) (now : String) (p2 pid2 : String) :
    linksTo (setLink platform (LinkValue.dict pid un dn) now u) p2 pid2 =
      if p2 = platform then pid == pid2 else linksTo u p2 pid2 := by
  unfold linksTo setLink
  by_cases h : p2 = platform <;> simp [h]

theorem linksTo_unsetLink (u : UserDoc) (platform p2 pid2 : String) :
    linksTo (PlatformLinkService.unsetLink platform u) p2 pid2 =
      if p2 = platform then false else linksTo u p2 pid2 := by
  unfold linksTo PlatformLinkService.unsetLink
  by_cases h : p2 = platform <;> simp [h]

/-- Writing the dict link preserves the invariant, provided any current
holder of the pair found by find? is the user being written. -/
theorem StoreInv_setLink (store : List UserDoc)
    (uid platform pid : String) (un dn : Option String) (now : String)
    (hInv : StoreInv store)
    (hold : ∀ ex, store.find? (fun u => linksTo u platform pid) = some ex →
      ex._id = uid) :
    StoreInv (updateOne store uid
      (setLink platform (LinkValue.dict pid un dn) now)).1 := by
  obtain ⟨hids, hcnt⟩ := hInv
  have hmap := updateOne_eq_map store uid
    (setLink platform (LinkValue.dict pid un dn) now) hids
  constructor
  · rw [updateOne_map_id store uid
      (setLink platform (LinkValue.dict pid un dn) now) (fun u => rfl)]
    exact hids
  · intro p2 pid2
    rw [hmap, List.countP_map]
    by_cases hp : p2 = platform
    · by_cases hpid : pid = pid2
      · refine le_trans (List.countP_mono_left ?_) (countP_id_le_one store uid hids)
        intro u hu hpu
        by_cases hid : u._id = uid
        · simp [hid]
        · have hno := no_other_holder store platform pid uid
            (hcnt platform pid) hold u hu hid
          have hpu2 : linksTo u platform pid = true := by
            simpa [Function.comp, hid, hp, hpid] using hpu
          simp [hno] at hpu2
      · refine le_trans (List.countP_mono_left ?_) (hcnt p2 pid2)
        intro u hu hpu
        by_cases hid : u._id = uid
        · exfalso
          have hbeq : (pid == pid2) = true := by
            simpa [Function.comp, hid, linksTo_setLink, hp] using hpu
          exact hpid (by simpa using hbeq)
        · simpa [Function.comp, hid] using hpu
    · refine le_trans (List.countP_mono_left ?_) (hcnt p2 pid2)
      intro u hu hpu
      by_cases hid : u._id = uid
      · simpa [Function.comp, hid, linksTo_setLink, hp] using hpu
      · simpa [Function.comp, hid] using hpu

/-- Removing a link preserves the invariant. -/
theorem StoreInv_unsetLink (store : List UserDoc) (uid platform : String)
    (hInv : StoreInv store) :
    StoreInv (updateOne store uid (PlatformLinkService.unsetLink platform)).1 := by
  obtain ⟨hids, hcnt⟩ := hInv
  have hmap := updateOne_eq_map store uid
    (PlatformLinkService.unsetLink platform) hids
  constructor
  · rw [updateOne_map_id store uid
      (PlatformLinkService.unsetLink platform) (fun u => rfl)]
    exact hids
  · intro p2 pid2
    rw [hmap, List.countP_map]
    refine le_trans (List.countP_mono_left ?_) (hcnt p2 pid2)
    intro u hu hpu
    by_cases hid : u._id = uid
    · by_cases hp : p2 = platform
      · exfalso
        simp [Function.comp, hid, linksTo_unsetLink, hp] at hpu
      · simpa [Function.comp, hid, linksTo_unsetLink, hp] using hpu
    · simpa [Function.comp, hid] using hpu

theorem buildLinkValue_eq (pid : String) (profile : Option Profile) :
    ∃ un dn, buildLinkValue pid profile = LinkValue.dict pid un dn := by
  cases profile <;> exact ⟨_, _, rfl⟩

/-- An error result of link_account carries one of the four ValueError
messages of the code. -/
theorem link_account_error_msgs (store : List UserDoc)
    (user_id platform platform_user_id : String) (profile : Option Profile)
    (now : String) (msg : String)
    (hE : PlatformLinkService.link_account store user_id platform
      platform_user_id profile now = Except.error msg) :
    msg = errEmptyPid ∨ msg = errLinkedToOther platform ∨
    msg = errDifferentLinked platform ∨ msg = errUserNotFound := by
  simp only [PlatformLinkService.link_account] at hE
  split at hE
  · injection hE with h
    exact Or.inl h.symm
  · split at hE
    · injection hE with h
      exact Or.inr (Or.inl h.symm)
    · split at hE
      · injection hE with h
        exact Or.inr (Or.inr (Or.inl h.symm))
      · split at hE
        · injection hE with h
          exact Or.inr (Or.inr (Or.inr h.symm))
        · simp at hE

/-- A success of link_account preserves the invariant and leaves the
written pair held by exactly one account. -/
theorem link_account_ok (store : List UserDoc)
    (user_id platform platform_user_id : String) (profile : Option Profile)
    (now : String) (s2 : List UserDoc) (hInv : StoreInv store)
    (hE : PlatformLinkService.link_account store user_id platform
      platform_user_id profile now = Except.ok s2) :
    StoreInv s2 ∧
    s2.countP (fun u => linksTo u platform (pyStrip platform_user_id)) = 1 := by
  simp only [PlatformLinkService.link_account] at hE
  split at hE
  · simp at hE
  next h1 =>
    split at hE
    · simp at hE
    next h2 =>
      split at hE
      · simp at hE
      next h3 =>
        split at hE
        · simp at hE
        next h4 =>
          injection hE with h
          obtain ⟨un, dn, hbv⟩ :=
            buildLinkValue_eq (pyStrip platform_user_id) profile
          have hold : ∀ ex,
              store.find? (fun u => linksTo u platform (pyStrip platform_user_id)) =
                some ex → ex._id = user_id := by
            intro ex hex
            rw [hex] at h2
            by_contra hne
            exact h2 (by simpa [bne_iff_ne] using hne)
          have hinv2 := StoreInv_setLink store user_id platform
            (pyStrip platform_user_id) un dn now hInv hold
          rw [hbv] at h h4
          constructor
          · rw [← h]
            exact hinv2
          · obtain ⟨u0, hu0, hu0id⟩ := updateOne_snd_ne_zero store user_id _ h4
            have hle := hinv2.2 platform (pyStrip platform_user_id)
            have hmap := updateOne_eq_map store user_id
              (setLink platform
                (LinkValue.dict (pyStrip platform_user_id) un dn) now)
              hInv.1
            have hpos : 0 < (updateOne store user_id
                (setLink platform
                  (LinkValue.dict (pyStrip platform_user_id) un dn) now)).1.countP
                (fun u => linksTo u platform (pyStrip platform_user_id)) := by
              rw [hmap, List.countP_map]
              refine List.countP_pos_iff.mpr ⟨u0, hu0, ?_⟩
              simp [Function.comp, hu0id, linksTo_setLink]
            rw [← h]
            omega

/-- Post condition of one link_account call: on success the written
pair is held by exactly one account; on failure the message is one of
the four ValueError messages (and the store is untouched). -/
def linkOutcome (store : List UserDoc)
    (user_id platform platform_user_id : String)
    (profile : Option Profile) (now : String) : Prop :=
  match PlatformLinkService.link_account store user_id platform
    platform_user_id profile now with
  | Except.ok s2 =>
    s2.countP (fun u => linksTo u platform (pyStrip platform_user_id)) = 1
  | Except.error msg =>
    msg = errEmptyPid ∨ msg = errLinkedToOther platform ∨
    msg = errDifferentLinked platform ∨ msg = errUserNotFound

/-- C8: starting from a store satisfying the PlatformLink invariant,
link_account either raises one of its four ValueError conditions
leaving the store unchanged, or stores the dict link so that exactly
one account holds the written pair; the invariant holds after
link_account and after unlink_account in every case. -/
theorem c8_link_unlink_preserve_invariant (store : List UserDoc)
    (user_id platform platform_user_id : String) (profile : Option Profile)
    (now : String) (hInv : StoreInv store) :
    StoreInv (resultStore store (PlatformLinkService.link_account store
      user_id platform platform_user_id profile now)) ∧
    StoreInv (resultStore store (PlatformLinkService.unlink_account store
      user_id platform)) ∧
    linkOutcome store user_id platform platform_user_id profile now := by
  refine ⟨?_, ?_, ?_⟩
  · cases hE : PlatformLinkService.link_account store user_id platform
        platform_user_id profile now with
    | error msg => exact hInv
    | ok s2 =>
      exact (link_account_ok store user_id platform platform_user_id
        profile now s2 hInv hE).1
  · unfold PlatformLinkService.unlink_account
    by_cases h : (updateOne store user_id
        (PlatformLinkService.unsetLink platform)).2 = 0
    · simpa [h, resultStore] using hInv
    · simpa [h, resultStore] using
        StoreInv_unsetLink store user_id platform hInv
  · unfold linkOutcome
    cases hE : PlatformLinkService.link_account store user_id platform
        platform_user_id profile now with
    | error msg =>
      exact link_account_error_msgs store user_id platform platform_user_id
        profile now msg hE
    | ok s2 =>
      exact (link_account_ok store user_id platform platform_user_id
        profile now s2 hInv hE).2

theorem storeInv_nil : StoreInv ([] : List UserDoc) :=
  ⟨List.nodup_nil, fun _ _ => by simp⟩

theorem c8_witness :
    StoreInv ([] : List UserDoc) ∧
    (StoreInv (resultStore [] (PlatformLinkService.link_account []
      "u1" "discord" "d1" none "t")) ∧
     StoreInv (resultStore [] (PlatformLinkService.unlink_account []
      "u1" "discord")) ∧
     linkOutcome [] "u1" "discord" "d1" none "t") :=
  ⟨storeInv_nil,
   c8_link_unlink_preserve_invariant [] "u1" "discord" "d1" none "t"
     storeInv_nil⟩

/-! ### C1 -/

/-- The short-TTL cache holds no entry for the pair whose embedded user
id is the given user. -/
def cacheNotForUser (cache : Cache)
    (platform platform_user_id uid : String) : Prop :=
  ∀ ui, cache (cacheKey platform platform_user_id) = some ui →
    ui.user_id ≠ uid

/-- The durable PlatformLink for the pair does not point to the given
user: the service lookup finds no document, or a document with a
different id (the link was removed or relinked). -/
def storeNotLinkedTo (store : List UserDoc)
    (platform platform_user_id uid : String) : Prop :=
  ∀ u, PlatformLinkService.get_user_by_platform_id store platform
    platform_user_id = some u → u._id ≠ uid

def c1CachedInfo : UserInfo :=
  { user_id := "u1"
    email := none
    name := none
    picture := none
    auth_provider := "bot:discord"
    bot_authenticated := true }

/-- A cache state still holding the identity cached before an unlink. -/
def c1StaleCache : Cache :=
  fun k => if k = cacheKey "discord" "d1" then some c1CachedInfo else none

/-- A token issued for (user u1, platform discord, platform id d1). -/
def c1Token : BotSessionToken := create_bot_session_token "u1" "discord" "d1" 0

/-- C1 counterexample: with the durable store holding no link at all
for (discord, d1) - the unlink already happened - a stale cache entry
still carrying u1 makes the middleware resolve the replayed token to
the cached identity, so resolution does not fail for every state of the
short-TTL cache. -/
theorem c1_counterexample :
    PlatformLinkService.get_user_by_platform_id [] "discord" "d1" = none ∧
    (BotAuthMiddleware._authenticate_jwt [] c1StaleCache c1Token 60).1 =
      some c1CachedInfo :=
  ⟨rfl, rfl⟩

/-- C1 amended: the replayed token fails resolution for every cache
state that does not itself still carry an entry for (platform, platform
user id) embedding the token subject: when the cache misses (or holds a
different user) and the durable PlatformLink no longer points to the
token subject, the middleware resolves no identity. A stale cache entry
still embedding the subject resolves successfully until it expires. -/
theorem c1_token_scoping (store : List UserDoc) (cache : Cache)
    (token : BotSessionToken) (now : Nat)
    (hcache : cacheNotForUser cache token.platform token.platform_user_id
      token.sub)
    (hstore : storeNotLinkedTo store token.platform token.platform_user_id
      token.sub) :
    (BotAuthMiddleware._authenticate_jwt store cache token now).1 = none := by
  simp only [BotAuthMiddleware._authenticate_jwt]
  cases hv : verify_bot_session_token token now with
  | error e => rfl
  | ok claims =>
    have hc : claims = ⟨token.sub, token.platform, token.platform_user_id⟩ := by
      unfold verify_bot_session_token at hv
      split at hv
      · exact absurd hv (by simp)
      · split at hv
        · exact absurd hv (by simp)
        · injection hv with h
          exact h.symm
    subst hc
    dsimp only
    by_cases hemp : token.sub = "" ∨ token.platform = "" ∨
        token.platform_user_id = ""
    · rw [if_pos hemp]
    · rw [if_neg hemp]
      cases hck : cache (cacheKey token.platform token.platform_user_id) with
      | none =>
        cases hfind : PlatformLinkService.get_user_by_platform_id store
            token.platform token.platform_user_id with
        | none => rfl
        | some ud =>
          have hne := hstore ud hfind
          dsimp only
          rw [if_pos hne]
      | some cu =>
        have hne := hcache cu hck
        dsimp only
        rw [if_neg hne]
        cases hfind : PlatformLinkService.get_user_by_platform_id store
            token.platform token.platform_user_id with
        | none => rfl
        | some ud =>
          have hne2 := hstore ud hfind
          dsimp only
          rw [if_pos hne2]

theorem c1_witness :
    cacheNotForUser (fun _ => none) c1Token.platform
      c1Token.platform_user_id c1Token.sub ∧
    storeNotLinkedTo [] c1Token.platform c1Token.platform_user_id
      c1Token.sub ∧
    (BotAuthMiddleware._authenticate_jwt [] (fun _ => none) c1Token 60).1 =
      none :=
  ⟨fun _ h => Option.noConfusion h,
   fun _ h => Option.noConfusion h,
   c1_token_scoping [] (fun _ => none) c1Token 60
     (fun _ h => Option.noConfusion h)
     (fun _ h => Option.noConfusion h)⟩

/-! ### C3 -/

/-- A fresh account document with no platform links. -/
def mkUser (uid : String) : UserDoc :=
  { _id := uid
    platform_links := fun _ => none
    platform_links_connected_at := fun _ => none }

/-- One account, not yet linked. -/
def c3Store0 : List UserDoc := [mkUser "u1"]

/-- The store after linking discord id d123 to u1 through the service. -/
def c3Linked : List UserDoc :=
  resultStore c3Store0
    (PlatformLinkService.link_account c3Store0 "u1" "discord" "d123" none
      "2024-01-01T00:00:00")

def isOkE : Except String (List UserDoc) → Bool
  | Except.ok _ => true
  | Except.error _ => false

/-- C3: linking succeeds and stores the dict layout, after which the
service lookup (dotted path platform_links.discord.id) finds the
account, while the bot.py lookup (plain path platform_links.discord
compared against the id string) finds nothing - the two lookups
disagree on every account linked through the service, so bot requests
never see the link. -/
theorem c3_bot_lookup_misses_linked_account :
    isOkE (PlatformLinkService.link_account c3Store0 "u1" "discord" "d123"
      none "2024-01-01T00:00:00") = true ∧
    (PlatformLinkService.get_user_by_platform_id c3Linked "discord"
      "d123").map (fun u => u._id) = some "u1" ∧
    (BotEndpoint.get_user_by_platform_id c3Linked "discord" "d123").isNone =
      true :=
  ⟨by decide, by decide, by decide⟩
